import Mathlib

/-!
Verification of the watch/poll event pipeline of the minimal Kubernetes
operator in `src/main.rs` (a controller that watches the custom resource
`books` in group `example.technosophos.com` within the namespace
`default` and prints a line per event).

Shallow embedding: the Rust data types become Lean structures; `println!`
output is modelled as the returned `String`; process termination through
`.expect(..)` (a panic) is an `Outcome.terminated` result; the inputs that
reach the program from the outside world (result of loading the
kubeconfig, result of informer initialisation, the sequence of poll
results) are collected in an `Env` record, and `mainRun` computes the
observable trace of an execution of `main` on that environment.
-/

/-- Identity block of a Kubernetes object (`book.metadata` in the source);
the source reads only `name`, the other two fields come with the object
metadata of every resource instance. -/
structure Metadata where
  name : String
  ns : String
  resourceVersion : String
deriving DecidableEq

/-- The `Book` struct from `src/main.rs` lines 12-15: a title and an
optional list of authors. -/
structure Book where
  title : String
  authors : Option (List String)
deriving DecidableEq

/-- The alias `type KubeBook = Object<Book, Void>` from the source: object
metadata plus the `Book` spec (the `Void` status carries no data and is
omitted). -/
structure KubeBook where
  metadata : Metadata
  spec : Book
deriving DecidableEq

/-- Error payload of a server-reported error event. -/
structure ApiError where
  message : String
  code : Nat
deriving DecidableEq

/-- Modelled from the spec: the change-event type delivered by the kube
library (`WatchEvent<KubeBook>`), which is library code not under `src/`.
The spec's Change Event kinds are {Added, Modified, Deleted, Error,
BookmarkOrUnknown}; the source's `handle` matches `Added`, `Deleted`, and
a catch-all `_` covering the rest. -/
inductive WatchEvent where
  | added (obj : KubeBook)
  | modified (obj : KubeBook)
  | deleted (obj : KubeBook)
  | errorEvent (err : ApiError)
  | bookmarkOrUnknown (obj : KubeBook)
deriving DecidableEq

/-- The kind tag of an event, without its payload. -/
inductive EventKind where
  | added
  | modified
  | deleted
  | errorEvent
  | bookmarkOrUnknown
deriving DecidableEq

/-- Kind of a watch event. -/
def WatchEvent.kind : WatchEvent → EventKind
  | .added _ => .added
  | .modified _ => .modified
  | .deleted _ => .deleted
  | .errorEvent _ => .errorEvent
  | .bookmarkOrUnknown _ => .bookmarkOrUnknown

/-- True for the event kinds the source's `handle` does not name
explicitly, i.e. everything the catch-all `_` arm covers. -/
def WatchEvent.isCatchAll (e : WatchEvent) : Bool :=
  match e with
  | .added _ => false
  | .deleted _ => false
  | _ => true

/-- The `handle` function from `src/main.rs` lines 50-64, with the line
printed by each arm as the return value: `Added` prints the object name
and title, `Deleted` prints the name, every other event prints the fixed
text "another event". -/
def handle (event : WatchEvent) : String :=
  match event with
  | .added book =>
      "Added a book " ++ book.metadata.name ++ " with title \x27" ++
        book.spec.title ++ "\x27"
  | .deleted book =>
      "Deleted a book " ++ book.metadata.name
  | _ => "another event"

/-- The inner drain loop of `main` (lines 44-46):
`while let Some(event) = informer.pop() { handle(event); }` — pop events
from the front of the queue until it is empty, invoking the handler on
each and discarding its result. Generic in the handler so that the
independence of the loop from the handler's outcome is expressible; the
trace records each invocation together with the handler's result. -/
def drainLoop {α : Type} (h : WatchEvent → α) : List WatchEvent → List (WatchEvent × α)
  | [] => []
  | event :: rest => (event, h event) :: drainLoop h rest

/-- Errors a poll of the watch session can fail with (spec section 4.2
taxonomy). The source treats every poll error identically through
`.expect`. -/
inductive PollError where
  | transient
  | closed
  | fatal (msg : String)
deriving DecidableEq

/-- Whether an execution of `main` is still in its infinite loop after
consuming the modelled inputs, or has terminated the process through a
panic (`.expect`). -/
inductive Outcome where
  | running
  | terminated (msg : String)
deriving DecidableEq

/-- The outer loop of `main` (lines 39-47): each iteration polls the
informer — `informer.poll().expect("informer poll failed")` terminates
the process on the first poll error — and on success drains the queue of
the events the poll produced, dispatching each to `handle`. Returns the
list of dispatched events and the outcome. -/
def runPolls : List (Except PollError (List WatchEvent)) → List WatchEvent × Outcome
  | [] => ([], Outcome.running)
  | Except.error _ :: _ => ([], Outcome.terminated "informer poll failed")
  | Except.ok batch :: rest =>
      let drained := (drainLoop handle batch).map Prod.fst
      let next := runPolls rest
      (drained ++ next.1, next.2)

/-- Opaque kubeconfig value produced by `config::load_kube_config()`. -/
structure Configuration where
  raw : String
deriving DecidableEq

/-- The API client, `APIClient::new(kubeconfig)`. -/
structure APIClient where
  config : Configuration
deriving DecidableEq

/-- `APIClient::new` from the source line 27. -/
def APIClient.new (c : Configuration) : APIClient := ⟨c⟩

/-- A watch target as built by the `RawApi` builder: resource plural name,
API group, and namespace. -/
structure RawApi where
  resource : String
  apiGroup : String
  ns : String
deriving DecidableEq

/-- `RawApi::customResource("books")` — selects the custom resource by
its plural name; group and namespace are filled by the builder calls. -/
def RawApi.customResource (r : String) : RawApi :=
  ⟨r, "", ""⟩

/-- `.group("example.technosophos.com")` builder step. -/
def RawApi.group (api : RawApi) (g : String) : RawApi :=
  { api with apiGroup := g }

/-- `.within(&namespace)` builder step. -/
def RawApi.within (api : RawApi) (n : String) : RawApi :=
  { api with ns := n }

/-- The inputs an execution of `main` receives from the outside world:
the result of loading the kubeconfig, the result of initialising the
informer, and the sequence of poll results (each either an error or the
batch of events that the poll enqueued). -/
structure Env where
  kubeconfigResult : Except String Configuration
  informerInitResult : Except String Unit
  pollResults : List (Except PollError (List WatchEvent))

/-- Observable trace of one execution of `main`: whether an API client
was constructed, the watch targets constructed, the events dispatched to
`handle` in dispatch order, the lines `handle` printed for them, and the
outcome. -/
structure RunResult where
  clientConstructed : Bool
  watchTargets : List RawApi
  dispatched : List WatchEvent
  outputs : List String
  outcome : Outcome
deriving DecidableEq

/-- The `main` function from `src/main.rs` lines 21-47:
load the kubeconfig (`.expect("kubeconfig failed to load")` terminates on
failure, before any client exists), construct the client, hard-code the
namespace "default", build the `RawApi` watch target for the `books`
custom resource in group `example.technosophos.com`, initialise the
informer (`.expect("informer init failed")`), then run the poll/drain
loop. -/
def mainRun (env : Env) : RunResult :=
  match env.kubeconfigResult with
  | Except.error _ =>
      { clientConstructed := false
        watchTargets := []
        dispatched := []
        outputs := []
        outcome := Outcome.terminated "kubeconfig failed to load" }
  | Except.ok kubeconfig =>
      let _client := APIClient.new kubeconfig
      let ns := "default"
      let resource :=
        ((RawApi.customResource "books").group "example.technosophos.com").within ns
      match env.informerInitResult with
      | Except.error _ =>
          { clientConstructed := true
            watchTargets := [resource]
            dispatched := []
            outputs := []
            outcome := Outcome.terminated "informer init failed" }
      | Except.ok _ =>
          let polled := runPolls env.pollResults
          { clientConstructed := true
            watchTargets := [resource]
            dispatched := polled.1
            outputs := polled.1.map handle
            outcome := polled.2 }

/-- JSON values, the wire representation used by the serde-based
(de)serialization of `Book`. -/
inductive Json where
  | null
  | str (s : String)
  | num (n : Int)
  | boolean (b : Bool)
  | arr (elems : List Json)
  | obj (fields : List (String × Json))

/-- First value bound to `key` in an object's field list, if any. -/
def lookupField : List (String × Json) → String → Option Json
  | [], _ => none
  | (k, v) :: rest, key => if k = key then some v else lookupField rest key

/-- Modelled from the spec: the serde-derived `Serialize` impl for `Book`
(`#[derive(Serialize)]` output is generated code, not under `src/`).
Fields are emitted in declaration order; an `Option` field that is `None`
is emitted as JSON `null`, a `Some` list of authors as an array of
strings. -/
def encodeBook (b : Book) : Json :=
  Json.obj
    [("title", Json.str b.title),
     ("authors",
       match b.authors with
       | none => Json.null
       | some authors => Json.arr (authors.map Json.str))]

/-- Decode a JSON array of strings, failing on any non-string element. -/
def decodeStrings : List Json → Except String (List String)
  | [] => Except.ok []
  | Json.str s :: rest =>
      match decodeStrings rest with
      | Except.ok tail => Except.ok (s :: tail)
      | Except.error e => Except.error e
  | _ :: _ => Except.error "invalid type: expected a string"

/-- Modelled from the spec: the serde-derived `Deserialize` impl for
`Book` (generated code, not under `src/`). A JSON object is required;
`title` must be present and a string; the `Option` field `authors` may be
absent or `null` (both decode to `none`) or an array of strings; fields
not belonging to the struct are ignored, matching serde's default. -/
def decodeBook (j : Json) : Except String Book :=
  match j with
  | Json.obj fields =>
      match lookupField fields "title" with
      | none => Except.error "missing field title"
      | some (Json.str title) =>
          match lookupField fields "authors" with
          | none => Except.ok ⟨title, none⟩
          | some Json.null => Except.ok ⟨title, none⟩
          | some (Json.arr elems) =>
              match decodeStrings elems with
              | Except.ok authors => Except.ok ⟨title, some authors⟩
              | Except.error e => Except.error e
          | some _ => Except.error "invalid type for authors"
      | some _ => Except.error "invalid type for title"
  | _ => Except.error "invalid type: expected an object"

/-- The part of an event `handle` actually reads: for `Added` the object
name and the spec title, for `Deleted` only the object name, nothing for
any other kind. -/
def obsProj : WatchEvent → Option (String × Option String)
  | .added b => some (b.metadata.name, some b.spec.title)
  | .deleted b => some (b.metadata.name, none)
  | _ => none

/-- A sample resource instance used in concrete runs. -/
def dune : KubeBook :=
  ⟨⟨"dune", "default", "1"⟩, ⟨"Dune", some ["Frank Herbert"]⟩⟩

/-- A second sample resource instance. -/
def mysteryBook : KubeBook :=
  ⟨⟨"mystery", "default", "7"⟩, ⟨"Mystery", none⟩⟩

/-- Dispatch trace of the drain loop: the handler is invoked once per
queued event, front to back. -/
theorem drainLoop_trace {α : Type} (h : WatchEvent → α) (q : List WatchEvent) :
    (drainLoop h q).map Prod.fst = q := by
  induction q with
  | nil => rfl
  | cons e rest ih => simp [drainLoop, ih]

/-- A run whose polls all succeed dispatches the concatenation of the
batches and stays in the loop. -/
theorem runPolls_ok (bs : List (List WatchEvent)) :
    runPolls (bs.map Except.ok) = (bs.flatten, Outcome.running) := by
  induction bs with
  | nil => rfl
  | cons b rest ih => simp [runPolls, drainLoop_trace, ih]

/-- The first failing poll terminates the run; events of earlier
successful polls were dispatched, nothing after the failure is. -/
theorem runPolls_error_after (bs : List (List WatchEvent)) (e : PollError)
    (rest : List (Except PollError (List WatchEvent))) :
    runPolls (bs.map Except.ok ++ Except.error e :: rest)
      = (bs.flatten, Outcome.terminated "informer poll failed") := by
  induction bs with
  | nil => rfl
  | cons b bs ih => simp [runPolls, drainLoop_trace, ih]

/-- Unfolding of `mainRun` once kubeconfig loading and informer
initialisation succeed. -/
theorem mainRun_ok_eq (cfg : Configuration)
    (ps : List (Except PollError (List WatchEvent))) :
    mainRun ⟨Except.ok cfg, Except.ok (), ps⟩ =
      { clientConstructed := true
        watchTargets := [⟨"books", "example.technosophos.com", "default"⟩]
        dispatched := (runPolls ps).1
        outputs := (runPolls ps).1.map handle
        outcome := (runPolls ps).2 } := rfl

/-- Decoding an array built from strings recovers exactly those strings. -/
theorem decodeStrings_map (as : List String) :
    decodeStrings (as.map Json.str) = Except.ok as := by
  induction as with
  | nil => rfl
  | cons a as ih => simp [decodeStrings, ih]

/-- C1: in a run where every poll succeeds, the Dispatcher's `handle` is
invoked exactly once per dequeued event, in queue (FIFO arrival) order:
the dispatch trace is the concatenation of the poll batches, the printed
output is `handle` mapped over that trace, and every subsequence selected
by a predicate (in particular the events of one fixed resource instance,
arriving with increasing resource versions) is observed in that exact
order. -/
theorem informer_dispatch_fifo_once (cfg : Configuration) (bs : List (List WatchEvent)) :
    (mainRun ⟨Except.ok cfg, Except.ok (), bs.map Except.ok⟩).dispatched = bs.flatten ∧
    (mainRun ⟨Except.ok cfg, Except.ok (), bs.map Except.ok⟩).outputs
      = bs.flatten.map handle ∧
    ∀ p : WatchEvent → Bool,
      (mainRun ⟨Except.ok cfg, Except.ok (), bs.map Except.ok⟩).dispatched.filter p
        = bs.flatten.filter p := by
  refine ⟨?_, ?_, fun p => ?_⟩ <;> simp [mainRun_ok_eq, runPolls_ok]

/-- C2 counterexample: a run whose first poll fails with a `Transient`
error, followed by a poll result that would have succeeded, terminates
the process with the panic message of the `.expect` call and dispatches
nothing — there is no Recovering state and the loop never returns to
Watching. -/
theorem poll_failure_no_recovery_cex :
    (mainRun ⟨Except.ok ⟨"kubeconfig"⟩, Except.ok (),
        [Except.error PollError.transient,
         Except.ok [WatchEvent.added dune]]⟩).outcome
      = Outcome.terminated "informer poll failed" ∧
    (mainRun ⟨Except.ok ⟨"kubeconfig"⟩, Except.ok (),
        [Except.error PollError.transient,
         Except.ok [WatchEvent.added dune]]⟩).dispatched = [] :=
  ⟨rfl, rfl⟩

/-- C2 amended: when a poll fails with a `Transient` or `Closed` error the
Informer Loop does not recover: the process terminates immediately via
the `.expect` panic, no retry or re-open is attempted (later poll results
are never consumed), and only events of polls before the failure were
dispatched. -/
theorem transient_poll_failure_fatal (cfg : Configuration)
    (pre : List (List WatchEvent)) (e : PollError)
    (rest : List (Except PollError (List WatchEvent)))
    (_h : e = PollError.transient ∨ e = PollError.closed) :
    (mainRun ⟨Except.ok cfg, Except.ok (),
        pre.map Except.ok ++ Except.error e :: rest⟩).outcome
      = Outcome.terminated "informer poll failed" ∧
    (mainRun ⟨Except.ok cfg, Except.ok (),
        pre.map Except.ok ++ Except.error e :: rest⟩).dispatched = pre.flatten := by
  simp [mainRun_ok_eq, runPolls_error_after]

/-- C2 amended, witnessed at a concrete transient failure. -/
theorem transient_poll_failure_fatal_witness :
    (mainRun ⟨Except.ok ⟨"kubeconfig"⟩, Except.ok (),
        List.map Except.ok [] ++ Except.error PollError.transient
          :: [Except.ok [WatchEvent.added dune]]⟩).outcome
      = Outcome.terminated "informer poll failed" ∧
    (mainRun ⟨Except.ok ⟨"kubeconfig"⟩, Except.ok (),
        List.map Except.ok [] ++ Except.error PollError.transient
          :: [Except.ok [WatchEvent.added dune]]⟩).dispatched = List.flatten [] :=
  transient_poll_failure_fatal ⟨"kubeconfig"⟩ [] PollError.transient
    [Except.ok [WatchEvent.added dune]] (Or.inl rfl)

/-- C3: the first failure returned by a poll terminates the process:
whatever poll results would have followed, the outcome is the panic of
`informer.poll().expect(..)`, and no event beyond those of the earlier
successful polls is ever dequeued or dispatched. -/
theorem first_poll_failure_terminates (cfg : Configuration)
    (pre : List (List WatchEvent)) (e : PollError)
    (rest : List (Except PollError (List WatchEvent))) :
    (mainRun ⟨Except.ok cfg, Except.ok (),
        pre.map Except.ok ++ Except.error e :: rest⟩).outcome
      = Outcome.terminated "informer poll failed" ∧
    (mainRun ⟨Except.ok cfg, Except.ok (),
        pre.map Except.ok ++ Except.error e :: rest⟩).dispatched = pre.flatten := by
  simp [mainRun_ok_eq, runPolls_error_after]

/-- C4: `Book` serialization round-trips — decoding an encoded instance
yields a value equal in title and authors — and an encoded instance with
the `authors` field absent decodes successfully to an absent author list
rather than failing. -/
theorem book_serialization_roundtrip :
    (∀ b : Book, decodeBook (encodeBook b) = Except.ok b) ∧
    decodeBook (Json.obj [("title", Json.str "Dune")]) = Except.ok ⟨"Dune", none⟩ := by
  refine ⟨fun b => ?_, rfl⟩
  obtain ⟨t, a⟩ := b
  cases a with
  | none => rfl
  | some as => simp [encodeBook, decodeBook, lookupField, decodeStrings_map]

/-- C5 counterexample: a dequeued event of unrecognized kind
(`BookmarkOrUnknown`) IS passed to the Dispatcher: the run dispatches it
to `handle`, which answers through its catch-all arm with "another
event". -/
theorem unrecognized_event_dispatched_cex :
    (mainRun ⟨Except.ok ⟨"kubeconfig"⟩, Except.ok (),
        [Except.ok [WatchEvent.bookmarkOrUnknown mysteryBook]]⟩).dispatched
      = [WatchEvent.bookmarkOrUnknown mysteryBook] ∧
    (mainRun ⟨Except.ok ⟨"kubeconfig"⟩, Except.ok (),
        [Except.ok [WatchEvent.bookmarkOrUnknown mysteryBook]]⟩).outputs
      = ["another event"] :=
  ⟨rfl, rfl⟩

/-- C5 amended: events of unrecognized kind are dequeued and passed to
the Dispatcher exactly like every other event; `handle` maps them through
its catch-all arm to the fixed line "another event" — the code never
excludes them from Dispatcher invocation. -/
theorem unrecognized_events_reach_dispatcher (q : List WatchEvent) (e : WatchEvent)
    (hmem : e ∈ q) (hkind : e.kind = EventKind.bookmarkOrUnknown) :
    e ∈ (drainLoop handle q).map Prod.fst ∧ handle e = "another event" := by
  refine ⟨by simpa [drainLoop_trace] using hmem, ?_⟩
  cases e <;> simp_all [WatchEvent.kind, handle]

/-- C5 amended, witnessed on a queue holding one unrecognized event. -/
theorem unrecognized_events_reach_dispatcher_witness :
    WatchEvent.bookmarkOrUnknown mysteryBook
        ∈ (drainLoop handle [WatchEvent.bookmarkOrUnknown mysteryBook]).map Prod.fst ∧
    handle (WatchEvent.bookmarkOrUnknown mysteryBook) = "another event" :=
  unrecognized_events_reach_dispatcher [WatchEvent.bookmarkOrUnknown mysteryBook]
    (WatchEvent.bookmarkOrUnknown mysteryBook) (List.mem_singleton.mpr rfl) rfl

/-- C6: the drain loop discards the handler's result, so no handler
outcome — including a failing one, modelled by a handler returning
`Except.error` — stops the Informer Loop: for every fallible handler and
every queue, every queued event is still dequeued and dispatched, in
order (a handler failing on event 3 of 5 still receives events 4 and
5). -/
theorem handler_result_never_stops_loop
    (hres : WatchEvent → Except String Unit) (q : List WatchEvent) :
    (drainLoop hres q).map Prod.fst = q :=
  drainLoop_trace hres q

/-- C7: failure to load the kubeconfig is fatal at process start: the run
terminates with the `.expect` panic before any client is constructed, any
watch target is built, or any event is dispatched, and it is never
retried. -/
theorem kubeconfig_failure_fatal (env : Env) (msg : String)
    (h : env.kubeconfigResult = Except.error msg) :
    mainRun env =
      { clientConstructed := false
        watchTargets := []
        dispatched := []
        outputs := []
        outcome := Outcome.terminated "kubeconfig failed to load" } := by
  obtain ⟨kc, ii, ps⟩ := env
  cases kc with
  | error e => rfl
  | ok c => simp at h

/-- C7, witnessed at a concrete failing kubeconfig load. -/
theorem kubeconfig_failure_fatal_witness :
    mainRun ⟨Except.error "no kubeconfig found", Except.ok (),
        [Except.ok [WatchEvent.added dune]]⟩ =
      { clientConstructed := false
        watchTargets := []
        dispatched := []
        outputs := []
        outcome := Outcome.terminated "kubeconfig failed to load" } :=
  kubeconfig_failure_fatal _ "no kubeconfig found" rfl

/-- C8: namespace and resource-kind selection is static: in every
execution every constructed watch target is the one with resource
"books", group "example.technosophos.com" and namespace "default", and
whenever the kubeconfig loads (the only step before the selection),
exactly that one target is constructed — no run-time input alters it. -/
theorem watch_target_static (env : Env) :
    (∀ t ∈ (mainRun env).watchTargets,
        t = ⟨"books", "example.technosophos.com", "default"⟩) ∧
    (∀ cfg : Configuration, env.kubeconfigResult = Except.ok cfg →
        (mainRun env).watchTargets
          = [⟨"books", "example.technosophos.com", "default"⟩]) := by
  obtain ⟨kc, ii, ps⟩ := env
  cases kc with
  | error e =>
      refine ⟨fun t ht => ?_, fun cfg hcfg => ?_⟩
      · simp [mainRun] at ht
      · simp at hcfg
  | ok c =>
      refine ⟨fun t ht => ?_, fun cfg hcfg => ?_⟩ <;> cases ii <;>
        simp_all [mainRun, RawApi.customResource, RawApi.group, RawApi.within]

/-- C8, witnessed at a concrete environment. -/
theorem watch_target_static_witness :
    (mainRun ⟨Except.ok ⟨"kubeconfig"⟩, Except.ok (), []⟩).watchTargets
      = [⟨"books", "example.technosophos.com", "default"⟩] :=
  (watch_target_static ⟨Except.ok ⟨"kubeconfig"⟩, Except.ok (), []⟩).2
    ⟨"kubeconfig"⟩ rfl

/-- C9: `handle` treats a `Modified` event exactly like every event kind
other than `Added` and `Deleted`: it never inspects the payload and
returns the same fixed line "another event" that any other catch-all
event produces. -/
theorem modified_treated_as_catch_all (b : KubeBook) (e : WatchEvent)
    (h : e.isCatchAll = true) :
    handle (WatchEvent.modified b) = "another event" ∧
    handle e = handle (WatchEvent.modified b) := by
  cases e <;> simp_all [WatchEvent.isCatchAll, handle]

/-- C9, witnessed on a modified book and a server error event. -/
theorem modified_treated_as_catch_all_witness :
    handle (WatchEvent.modified dune) = "another event" ∧
    handle (WatchEvent.errorEvent ⟨"gone", 410⟩) = handle (WatchEvent.modified dune) :=
  modified_treated_as_catch_all dune (WatchEvent.errorEvent ⟨"gone", 410⟩) rfl

/-- C10: `handle` is a total function whose output depends only on the
event's kind plus, for `Added`, the payload's metadata name and spec
title, and, for `Deleted`, only the metadata name (the projection
`obsProj`); in particular two `Added` events differing only in the
`authors` field produce identical output. -/
theorem handle_noninterference :
    (∀ e₁ e₂ : WatchEvent, e₁.kind = e₂.kind → obsProj e₁ = obsProj e₂ →
        handle e₁ = handle e₂) ∧
    (∀ (m : Metadata) (t : String) (a₁ a₂ : Option (List String)),
        handle (WatchEvent.added ⟨m, ⟨t, a₁⟩⟩) = handle (WatchEvent.added ⟨m, ⟨t, a₂⟩⟩)) := by
  refine ⟨fun e₁ e₂ hk hp => ?_, fun m t a₁ a₂ => rfl⟩
  cases e₁ <;> cases e₂ <;> simp_all [WatchEvent.kind, obsProj, handle]

/-- C10, witnessed on two added events differing in authors and resource
version. -/
theorem handle_noninterference_witness :
    handle (WatchEvent.added ⟨⟨"dune", "default", "1"⟩, ⟨"Dune", some ["Frank Herbert"]⟩⟩)
      = handle (WatchEvent.added ⟨⟨"dune", "default", "2"⟩, ⟨"Dune", none⟩⟩) :=
  handle_noninterference.1
    (WatchEvent.added ⟨⟨"dune", "default", "1"⟩, ⟨"Dune", some ["Frank Herbert"]⟩⟩)
    (WatchEvent.added ⟨⟨"dune", "default", "2"⟩, ⟨"Dune", none⟩⟩) rfl rfl
